import Mathlib

/-!
Verification of the Statcast collection pipeline
(`local_data_processing/collect_statcast_parallel.py`,
`collect_statcast_2025.py`, `collect_statcast_direct.py`,
`collect_statcast_local.py`).

The scripts fetch day-scoped CSV tables from an HTTP source, combine them
per month, and load each month into a BigQuery table.  We shallowly embed
the pure logic: dataframes become lists of rows, the BigQuery table
becomes a list of stored rows, the delete/insert/verify calls become list
operations, and the retry loops become structural recursions over the
attempt index list (`range(max_retries)`), driven by a `trace` function
that supplies the outcome of each network attempt.
-/

namespace HanksTank

/-- One CSV data row as fetched from the source.  Only the fields the
pipeline inspects are modelled: the month and day extracted from the
`game_date` column, plus an opaque payload distinguishing rows. -/
structure CsvRow where
  gdMonth : Nat
  gdDay : Nat
  payload : Nat
  deriving DecidableEq

/-- A pandas dataframe, as the loaders see it: its rows plus the
metadata columns the loaders add in place (`year`, `month`,
`data_load_timestamp`) and whether `game_date` has been coerced to a
datetime dtype. Freshly concatenated month data has none of these. -/
structure DataFrame where
  rows : List CsvRow
  gameDateAsDatetime : Bool
  yearCol : Option Int
  monthCol : Option Nat
  loadTimestamp : Option Nat
  deriving DecidableEq

/-- A row of the BigQuery table `statcast_pitches`.  `yearCol` is the
`year` column the loaders add; `monthCol` is the `month` column only the
2025 loader adds (absent = NULL for rows loaded by the other scripts);
`gdMonth`/`gdDay` come from the `game_date` column. -/
structure StoredRow where
  yearCol : Int
  monthCol : Option Nat
  gdMonth : Nat
  gdDay : Nat
  payload : Nat
  deriving DecidableEq

abbrev Store := List StoredRow

/-- The period predicate used by the delete and verify queries of the
parallel/direct/local loaders:
`year = {year} AND EXTRACT(MONTH FROM game_date) = {month}`. -/
def matchesPeriod (y : Int) (m : Nat) (r : StoredRow) : Bool :=
  r.yearCol == y && r.gdMonth == m

/-- The query `DELETE FROM table WHERE year = y AND EXTRACT(MONTH FROM game_date) = m`. -/
def deleteMonth (store : Store) (y : Int) (m : Nat) : Store :=
  store.filter (fun r => !(matchesPeriod y m r))

/-- The query `SELECT COUNT(*) WHERE year = y AND EXTRACT(MONTH FROM game_date) = m`. -/
def countMonth (store : Store) (y : Int) (m : Nat) : Nat :=
  (store.filter (matchesPeriod y m)).length

/-- The rows of the store belonging to a period key. -/
def periodRows (store : Store) (y : Int) (m : Nat) : Store :=
  store.filter (matchesPeriod y m)

/-- How `load_table_from_dataframe` stores a dataframe row after the
parallel/direct/local loaders added only a `year` column. -/
def toStored (y : Int) (r : CsvRow) : StoredRow :=
  ⟨y, none, r.gdMonth, r.gdDay, r.payload⟩

/-- Result of one loader call: the store afterwards, the verified count
returned to the caller, and the caller's dataframe afterwards (the
loaders mutate it in place). -/
structure UploadResult where
  store : Store
  verified : Nat
  df : DataFrame
  deriving DecidableEq

/-- Function `upload_month_data` of `collect_statcast_parallel.py` (and, modulo
log lines, `upload_to_bigquery` of `collect_statcast_direct.py` /
`collect_statcast_local.py`): guard on empty input, coerce `game_date`,
add the `year` column, delete the period's existing rows, append the
dataframe, and re-count the period as verification. -/
def upload_month_data (store : Store) (df : DataFrame) (y : Int) (m : Nat) :
    UploadResult :=
  if df.rows.length = 0 then ⟨store, 0, df⟩
  else
    let df1 : DataFrame :=
      { df with gameDateAsDatetime := true, yearCol := some y }
    let store1 := deleteMonth store y m
    let store2 := store1 ++ df1.rows.map (toStored y)
    ⟨store2, countMonth store2 y m, df1⟩

/-- How `load_table_from_dataframe` stores a dataframe row after the
2025 loader added `year` and `month` columns. -/
def toStored2025 (y : Int) (m : Nat) (r : CsvRow) : StoredRow :=
  ⟨y, some m, r.gdMonth, r.gdDay, r.payload⟩

/-- The verification query of the 2025 loader:
`SELECT COUNT(*) WHERE year = y AND month = m` (the `month` COLUMN, not
`EXTRACT`; rows without that column are NULL and do not match). -/
def countYearMonthCol (store : Store) (y : Int) (m : Nat) : Nat :=
  (store.filter (fun r => r.yearCol == y && r.monthCol == some m)).length

/-- Function `upload_month_data` of `collect_statcast_2025.py`: guard on empty
input, coerce `game_date`, add `year`, `month` and
`data_load_timestamp` columns, then append with WRITE_APPEND and verify.
There is NO delete step in this variant. -/
def upload_month_data_2025 (store : Store) (df : DataFrame) (y : Int)
    (m : Nat) (now : Nat) : UploadResult :=
  if df.rows.length = 0 then ⟨store, 0, df⟩
  else
    let df1 : DataFrame :=
      { df with gameDateAsDatetime := true, yearCol := some y,
                monthCol := some m, loadTimestamp := some now }
    let store1 := store ++ df1.rows.map (toStored2025 y m)
    ⟨store1, countYearMonthCol store1 y m, df1⟩

/-! ### Retry wrapper (`collect_day`) -/

/-- Outcome of one call to `fetch_statcast_day` in
`collect_statcast_parallel.py`: the parsed dataframe (`none` when the
response body is blank, i.e. an empty day), or a raised exception. -/
inductive FetchResult where
  | ok (df : Option (List CsvRow))
  | exn (err : String)
  deriving DecidableEq

/-- The triple `(date_str, df, error)` that `collect_day` of
`collect_statcast_parallel.py` returns. -/
structure DayResult where
  date : String
  df : Option (List CsvRow)
  error : Option String
  deriving DecidableEq

/-- The `for attempt in range(max_retries)` loop body of `collect_day`
(`collect_statcast_parallel.py`).  `trace i` is the outcome of the
`i`-th fetch attempt.  Returns the day's result together with the
number of fetch attempts actually made (the loop falls through to
`"Max retries exceeded"` only when the attempt list is exhausted). -/
def collect_day_loop (trace : Nat → FetchResult) (date : String)
    (maxRetries : Nat) : List Nat → DayResult × Nat
  | [] => (⟨date, none, some "Max retries exceeded"⟩, 0)
  | attempt :: rest =>
    match trace attempt with
    | .ok df =>
      match df with
      | some rows =>
        if rows.length > 0 then (⟨date, some rows, none⟩, 1)
        else (⟨date, none, none⟩, 1)
      | none => (⟨date, none, none⟩, 1)
    | .exn e =>
      if attempt < maxRetries - 1 then
        let p := collect_day_loop trace date maxRetries rest
        (p.1, p.2 + 1)
      else (⟨date, none, some (e.take 100)⟩, 1)

/-- Function `collect_day(date_str, max_retries=2)` of
`collect_statcast_parallel.py`, instrumented with the attempt count. -/
def collect_day (trace : Nat → FetchResult) (date : String)
    (maxRetries : Nat := 2) : DayResult × Nat :=
  collect_day_loop trace date maxRetries (List.range maxRetries)

/-- The `for attempt in range(max_retries + 1)` loop of `collect_day`
in `collect_statcast_2025.py`.  There `fetch_statcast_day` catches all
exceptions and returns `None`, so `trace i` is just the optional
dataframe of attempt `i`; only a dataframe with at least one row stops
the loop, everything else (error OR empty) sleeps and retries. -/
def collect_day_2025_loop (trace : Nat → Option (List CsvRow)) :
    List Nat → Option (List CsvRow) × Nat
  | [] => (none, 0)
  | attempt :: rest =>
    match trace attempt with
    | some rows =>
      if rows.length > 0 then (some rows, 1)
      else
        let p := collect_day_2025_loop trace rest
        (p.1, p.2 + 1)
    | none =>
      let p := collect_day_2025_loop trace rest
      (p.1, p.2 + 1)

/-- Function `collect_day(date_str, max_retries=2)` of `collect_statcast_2025.py`
(up to `max_retries + 1` fetch attempts), instrumented with the
attempt count. -/
def collect_day_2025 (trace : Nat → Option (List CsvRow))
    (maxRetries : Nat := 2) : Option (List CsvRow) × Nat :=
  collect_day_2025_loop trace (List.range (maxRetries + 1))

/-! ### Scheduler result aggregation and period assembly
(`collect_month_parallel`) -/

/-- The `as_completed` consumer loop of `collect_month_parallel`
(`collect_statcast_parallel.py`): walk the day results in arrival
order, recording errors and appending each non-`None` dataframe to
`all_data`.  Returns `(errors, all_data)`. -/
def aggregateResults (arrival : List DayResult) :
    List String × List (List CsvRow) :=
  arrival.foldl
    (fun acc r =>
      match r.error with
      | some e => (acc.1 ++ [r.date ++ ": " ++ e], acc.2)
      | none =>
        match r.df with
        | some rows => (acc.1, acc.2 ++ [rows])
        | none => acc)
    ([], [])

/-- The rows a day result contributes to `all_data`: its dataframe,
when it carries no error and a dataframe. -/
def successRows (r : DayResult) : Option (List CsvRow) :=
  match r.error with
  | some _ => none
  | none => r.df

/-- Tail of `collect_month_parallel`
(`collect_statcast_parallel.py`): combine `all_data` with `pd.concat`
and upload, or report no data and leave the store alone.  `arrival` is
the sequence of day results in completion order. -/
def collect_month_parallel (store : Store) (y : Int) (m : Nat)
    (arrival : List DayResult) : Store × Nat :=
  let agg := aggregateResults arrival
  if agg.2.isEmpty then (store, 0)
  else
    let combined : DataFrame := ⟨agg.2.flatten, false, none, none, none⟩
    let res := upload_month_data store combined y m
    (res.store, res.verified)

/-- The `as_completed` consumer loop of `collect_month_parallel` in
`collect_statcast_2025.py`: append each dataframe with at least one
row; no per-day error records exist in this variant. -/
def aggregateResults2025 (arrival : List (Option (List CsvRow))) :
    List (List CsvRow) :=
  arrival.foldl
    (fun acc r =>
      match r with
      | some rows => if rows.length > 0 then acc ++ [rows] else acc
      | none => acc)
    []

/-- Tail of `collect_month_parallel` in `collect_statcast_2025.py`. -/
def collect_month_parallel_2025 (store : Store) (y : Int) (m : Nat)
    (now : Nat) (arrival : List (Option (List CsvRow))) : Store × Nat :=
  let ds := aggregateResults2025 arrival
  if ds.isEmpty then (store, 0)
  else
    let combined : DataFrame := ⟨ds.flatten, false, none, none, none⟩
    let res := upload_month_data_2025 store combined y m now
    (res.store, res.verified)

/-! ### Collection planner (`get_months_to_collect`,
`collect_statcast_direct.py`; the inline check of
`collect_statcast_local.py` is the same test) -/

def years_to_collect : List Int :=
  [2015, 2016, 2017, 2018, 2019, 2020, 2021, 2022, 2023, 2024]

def months_to_collect : List Nat := [3, 4, 5, 6, 7, 8, 9, 10]

/-- All candidate periods in the order the planner's nested loops visit
them (years ascending, months ascending within a year). -/
def candidate_periods : List (Int × Nat) :=
  years_to_collect.flatMap fun y => months_to_collect.map fun m => (y, m)

/-- The `existing` set built by `get_months_to_collect`: the periods
whose stored count is STRICTLY above 1000 (`if count > 1000`).
`count y m` abstracts the per-period `SELECT COUNT(*)` query. -/
def existing_months (count : Int → Nat → Nat) : List (Int × Nat) :=
  years_to_collect.flatMap fun y =>
    (months_to_collect.filter fun m => 1000 < count y m).map fun m => (y, m)

/-- Function `get_months_to_collect` of `collect_statcast_direct.py`: the second
nested loop emits, in order, every candidate period not in `existing`. -/
def get_months_to_collect (count : Int → Nat → Nat) : List (Int × Nat) :=
  years_to_collect.flatMap fun y =>
    (months_to_collect.filter
      fun m => !((existing_months count).contains (y, m))).map
      fun m => (y, m)

/-! ### Date-range expansion (`collect_month_parallel` of both parallel
variants) -/

/-- Gregorian leap-year test, as `datetime` implements it. -/
def isLeap (y : Int) : Bool :=
  y % 4 == 0 && (y % 100 != 0 || y % 400 == 0)

/-- Number of days in a month; the value of the source's
`datetime(year, month, 1) + timedelta(days=32)` / `replace(day=1) -
timedelta(days=1)` last-day computation. -/
def daysInMonth (y : Int) (m : Nat) : Nat :=
  if m = 2 then (if isLeap y then 29 else 28)
  else if m = 4 ∨ m = 6 ∨ m = 9 ∨ m = 11 then 30
  else 31

/-- The day numbers of the dates list built by `collect_month_parallel`
(`collect_statcast_parallel.py`): start at the 20th for March, the 1st
otherwise; end at the 31st for October (= its last day), the month's
last day otherwise. -/
def month_dates (y : Int) (m : Nat) : List Nat :=
  let startDay := if m = 3 then 20 else 1
  let endDay := if m = 10 then 31 else daysInMonth y m
  (List.range (endDay + 1 - startDay)).map (· + startDay)

/-- The day numbers of the dates list built by `collect_month_parallel`
of `collect_statcast_2025.py`, which uses a hard-coded last-day table
(February always 28; months 4, 6, 9 have 30 days; otherwise 31). -/
def month_dates_2025 (_y : Int) (m : Nat) : List Nat :=
  let startDay := if m = 3 then 20 else 1
  let endDay : Nat :=
    if m = 12 then 31
    else if m = 4 ∨ m = 6 ∨ m = 9 then 30
    else if m = 2 then 28
    else 31
  (List.range (endDay + 1 - startDay)).map (· + startDay)

/-! ### Derived notions used to state the properties -/

/-- The progress line recorded for a failed day by the consumer loop
(`errors.append(f"{date_str}: {error}")`). -/
def errEntry (r : DayResult) : Option String :=
  r.error.map (fun e => r.date ++ ": " ++ e)

/-- What a 2025 day result contributes to `all_data`. -/
def success2025 (r : Option (List CsvRow)) : Option (List CsvRow) :=
  match r with
  | some rows => if rows.length > 0 then some rows else none
  | none => none

/-- The day result `collect_day` builds from the first attempt outcome
that is not an exception. -/
def okResult (date : String) (f : FetchResult) : DayResult :=
  match f with
  | .ok (some rows) =>
    if rows.length > 0 then ⟨date, some rows, none⟩ else ⟨date, none, none⟩
  | .ok none => ⟨date, none, none⟩
  | .exn e => ⟨date, none, some (e.take 100)⟩

/-- Strict ordering of period keys: years ascending, then months. -/
abbrev periodLt (p q : Int × Nat) : Prop :=
  p.1 < q.1 ∨ (p.1 = q.1 ∧ p.2 < q.2)

/-! ## Lemmas about the scheduler consumer loop -/

theorem aggregateResults_go (arrival : List DayResult)
    (es : List String) (ds : List (List CsvRow)) :
    arrival.foldl
      (fun acc r =>
        match r.error with
        | some e => (acc.1 ++ [r.date ++ ": " ++ e], acc.2)
        | none =>
          match r.df with
          | some rows => (acc.1, acc.2 ++ [rows])
          | none => acc)
      (es, ds)
      = (es ++ arrival.filterMap errEntry, ds ++ arrival.filterMap successRows) := by
  induction arrival generalizing es ds with
  | nil => simp
  | cons r rest ih =>
    rcases r with ⟨date, df, error⟩
    cases error with
    | some e => simp [ih, errEntry, successRows]
    | none => cases df <;> simp [ih, errEntry, successRows]

/-- The consumer loop of `collect_month_parallel` collects exactly the
error lines of failed days and the dataframes of successful days, in
arrival order. -/
theorem aggregateResults_eq (arrival : List DayResult) :
    aggregateResults arrival
      = (arrival.filterMap errEntry, arrival.filterMap successRows) := by
  have h := aggregateResults_go arrival [] []
  simpa [aggregateResults] using h

theorem aggregateResults2025_go (arrival : List (Option (List CsvRow)))
    (ds : List (List CsvRow)) :
    arrival.foldl
      (fun acc r =>
        match r with
        | some rows => if rows.length > 0 then acc ++ [rows] else acc
        | none => acc)
      ds
      = ds ++ arrival.filterMap success2025 := by
  induction arrival generalizing ds with
  | nil => simp
  | cons r rest ih =>
    cases r with
    | some rows =>
      by_cases h : rows.length > 0
      · simp [ih, success2025, h]
      · simp [ih, success2025, h]
    | none => simp [ih, success2025]

theorem aggregateResults2025_eq (arrival : List (Option (List CsvRow))) :
    aggregateResults2025 arrival = arrival.filterMap success2025 := by
  have h := aggregateResults2025_go arrival []
  simpa [aggregateResults2025] using h

/-! ## Lemmas about the retry loops -/

/-- One failing, non-final attempt just recurses, adding one to the
attempt count. -/
theorem collect_day_loop_cons_exn (trace : Nat → FetchResult)
    (date : String) (maxRetries : Nat) (e : String) (attempt : Nat)
    (rest : List Nat) (he : trace attempt = FetchResult.exn e)
    (hc : attempt < maxRetries - 1) :
    collect_day_loop trace date maxRetries (attempt :: rest)
      = ((collect_day_loop trace date maxRetries rest).1,
         (collect_day_loop trace date maxRetries rest).2 + 1) := by
  simp [collect_day_loop, he, hc]

/-- If the first `k` attempts raise and attempt `k` does not, the
parallel retry loop stops at attempt `k`, returning the day result that
outcome dictates after exactly `k + 1` fetches. -/
theorem collect_day_loop_first_ok (trace : Nat → FetchResult) (date : String)
    (maxRetries : Nat) (k : Nat) :
    ∀ s n, s + n = maxRetries → k < n →
    (∀ i, i < k → ∃ e, trace (s + i) = FetchResult.exn e) →
    (∀ e, trace (s + k) ≠ FetchResult.exn e) →
    collect_day_loop trace date maxRetries (List.range' s n)
      = (okResult date (trace (s + k)), k + 1) := by
  induction k with
  | zero =>
    intro s n hsn hk hfail hterm
    obtain ⟨n', rfl⟩ : ∃ n', n = n' + 1 := ⟨n - 1, by omega⟩
    rw [List.range'_succ]
    cases h : trace s with
    | ok df =>
      cases df with
      | some rows =>
        by_cases hl : rows.length > 0 <;>
          simp [collect_day_loop, h, okResult, hl]
      | none => simp [collect_day_loop, h, okResult]
    | exn e => exact absurd (by simpa using h) (hterm e)
  | succ k ih =>
    intro s n hsn hk hfail hterm
    obtain ⟨n', rfl⟩ : ∃ n', n = n' + 1 := ⟨n - 1, by omega⟩
    rw [List.range'_succ]
    obtain ⟨e, he⟩ := hfail 0 (by omega)
    have he' : trace s = FetchResult.exn e := by simpa using he
    have hrec := ih (s + 1) n' (by omega) (by omega)
      (fun i hi => by
        have := hfail (i + 1) (by omega)
        simpa [Nat.add_assoc, Nat.add_comm 1 i] using this)
      (fun e2 => by
        have := hterm e2
        simpa [Nat.add_assoc, Nat.add_comm 1 k] using this)
    have hcond : s < maxRetries - 1 := by omega
    simp only [collect_day_loop, he', if_pos hcond, hrec]
    have : s + 1 + k = s + (k + 1) := by omega
    rw [this]

/-- If every attempt raises, the parallel retry loop exhausts all
attempts and returns the last error, truncated to 100 characters. -/
theorem collect_day_loop_all_fail (trace : Nat → FetchResult) (date : String)
    (maxRetries : Nat) :
    ∀ n s, s + n = maxRetries → 0 < n →
    (∀ i, i < n → ∃ e, trace (s + i) = FetchResult.exn e) →
    ∃ e, trace (maxRetries - 1) = FetchResult.exn e ∧
      collect_day_loop trace date maxRetries (List.range' s n)
        = (⟨date, none, some (e.take 100)⟩, n) := by
  intro n
  induction n with
  | zero => omega
  | succ n' ih =>
    intro s hsn _hn hfail
    rw [List.range'_succ]
    obtain ⟨e, he⟩ := hfail 0 (by omega)
    have he' : trace s = FetchResult.exn e := by simpa using he
    cases n' with
    | zero =>
      refine ⟨e, by simpa [show maxRetries - 1 = s by omega] using he', ?_⟩
      have hcond : ¬ s < maxRetries - 1 := by omega
      simp [collect_day_loop, he', hcond]
    | succ n'' =>
      obtain ⟨e2, he2, heq⟩ := ih (s + 1) (by omega) (by omega)
        (fun i hi => by
          have := hfail (i + 1) (by omega)
          simpa [Nat.add_assoc, Nat.add_comm 1 i] using this)
      refine ⟨e2, he2, ?_⟩
      have hcond : s < maxRetries - 1 := by omega
      rw [collect_day_loop_cons_exn trace date maxRetries e s _ he' hcond, heq]

/-- If the first `k` attempts of the 2025 retry loop yield no usable
dataframe and attempt `k` yields `rows` with at least one row, the loop
returns `rows` after exactly `k + 1` fetches. -/
theorem collect_day_2025_loop_first_success
    (trace : Nat → Option (List CsvRow)) (rows : List CsvRow) (k : Nat) :
    ∀ s n, k < n →
    (∀ i, i < k → success2025 (trace (s + i)) = none) →
    trace (s + k) = some rows → 0 < rows.length →
    collect_day_2025_loop trace (List.range' s n) = (some rows, k + 1) := by
  induction k with
  | zero =>
    intro s n hk _hfail hsucc hlen
    obtain ⟨n', rfl⟩ : ∃ n', n = n' + 1 := ⟨n - 1, by omega⟩
    rw [List.range'_succ]
    have hs : trace s = some rows := by simpa using hsucc
    simp [collect_day_2025_loop, hs, hlen]
  | succ k ih =>
    intro s n hk hfail hsucc hlen
    obtain ⟨n', rfl⟩ : ∃ n', n = n' + 1 := ⟨n - 1, by omega⟩
    rw [List.range'_succ]
    have h0 : success2025 (trace s) = none := by
      have := hfail 0 (by omega)
      simpa using this
    have hrec := ih (s + 1) n' (by omega)
      (fun i hi => by
        have := hfail (i + 1) (by omega)
        simpa [Nat.add_assoc, Nat.add_comm 1 i] using this)
      (by
        have : s + 1 + k = s + (k + 1) := by omega
        rw [this]; exact hsucc) hlen
    cases hs : trace s with
    | some rows0 =>
      have hl0 : ¬ rows0.length > 0 := by
        intro hgt
        rw [hs] at h0
        simp [success2025, hgt] at h0
      simp [collect_day_2025_loop, hs, hl0, hrec]
    | none => simp [collect_day_2025_loop, hs, hrec]

/-- If no attempt of the 2025 retry loop yields a usable dataframe,
the loop exhausts all attempts and returns `none`. -/
theorem collect_day_2025_loop_all_fail
    (trace : Nat → Option (List CsvRow)) :
    ∀ n s, (∀ i, i < n → success2025 (trace (s + i)) = none) →
    collect_day_2025_loop trace (List.range' s n) = (none, n) := by
  intro n
  induction n with
  | zero => intro s _; simp [collect_day_2025_loop]
  | succ n' ih =>
    intro s hfail
    rw [List.range'_succ]
    have h0 : success2025 (trace s) = none := by
      have := hfail 0 (by omega)
      simpa using this
    have hrec := ih (s + 1)
      (fun i hi => by
        have := hfail (i + 1) (by omega)
        simpa [Nat.add_assoc, Nat.add_comm 1 i] using this)
    cases hs : trace s with
    | some rows0 =>
      have hl0 : ¬ rows0.length > 0 := by
        intro hgt
        rw [hs] at h0
        simp [success2025, hgt] at h0
      simp [collect_day_2025_loop, hs, hl0, hrec]
    | none => simp [collect_day_2025_loop, hs, hrec]

/-! ## Lemmas about the planner -/

theorem mem_existing_months (count : Int → Nat → Nat) (y : Int) (m : Nat) :
    (y, m) ∈ existing_months count ↔
      y ∈ years_to_collect ∧ m ∈ months_to_collect ∧ 1000 < count y m := by
  simp only [existing_months, List.mem_flatMap, List.mem_map, List.mem_filter,
    Prod.mk.injEq]
  constructor
  · rintro ⟨a, ha, b, ⟨hb, hcount⟩, rfl, rfl⟩
    exact ⟨ha, hb, by simpa using hcount⟩
  · rintro ⟨hy, hm, hcount⟩
    exact ⟨y, hy, m, ⟨hm, by simpa using hcount⟩, rfl, rfl⟩

/-- The planner's worklist is the candidate-period list, in its original
order, restricted to the periods whose stored count is at most 1000. -/
theorem get_months_to_collect_eq (count : Int → Nat → Nat) :
    get_months_to_collect count
      = candidate_periods.filter (fun p => decide (count p.1 p.2 ≤ 1000)) := by
  unfold get_months_to_collect candidate_periods
  rw [List.filter_flatMap]
  apply List.flatMap_congr
  intro y hy
  rw [List.filter_map]
  have hcon : ∀ m ∈ months_to_collect,
      (!((existing_months count).contains (y, m)))
        = ((fun p : Int × Nat => decide (count p.1 p.2 ≤ 1000)) ∘
            (fun m => (y, m))) m := by
    intro m hm
    simp only [Function.comp]
    have hc : ((existing_months count).contains (y, m))
        = decide (1000 < count y m) := by
      by_cases h : 1000 < count y m
      · rw [decide_eq_true h]
        simpa using (mem_existing_months count y m).mpr ⟨hy, hm, h⟩
      · rw [decide_eq_false h]
        have : (y, m) ∉ existing_months count := fun hmem =>
          h ((mem_existing_months count y m).mp hmem).2.2
        simpa using this
    rw [hc, ← decide_not, decide_eq_decide]
    omega
  rw [List.filter_congr hcon]

theorem candidate_periods_pairwise : candidate_periods.Pairwise periodLt := by
  decide

/-! ## Lemmas about the date-range expansion -/

theorem mem_range_map_add (n s d : Nat) :
    d ∈ (List.range n).map (· + s) ↔ s ≤ d ∧ d < s + n := by
  constructor
  · intro h
    obtain ⟨a, ha, rfl⟩ := List.mem_map.mp h
    have := List.mem_range.mp ha
    omega
  · rintro ⟨h1, h2⟩
    exact List.mem_map.mpr ⟨d - s, List.mem_range.mpr (by omega), by omega⟩

theorem nodup_range_map_add (n s : Nat) :
    ((List.range n).map (· + s)).Nodup :=
  (List.nodup_range n).map (add_left_injective s)

/-! ## Lemmas about the loader -/

theorem filter_of_filter_not {α : Type} (p : α → Bool) (l : List α) :
    (l.filter (fun a => !(p a))).filter p = [] := by
  induction l with
  | nil => rfl
  | cons a l ih => by_cases h : p a <;> simp [h, ih]

theorem filter_not_idem {α : Type} (p : α → Bool) (l : List α) :
    (l.filter (fun a => !(p a))).filter (fun a => !(p a))
      = l.filter (fun a => !(p a)) := by
  induction l with
  | nil => rfl
  | cons a l ih => by_cases h : p a <;> simp [h, ih]

/-- Every row the parallel/direct/local loader inserts for period
`(y, m)` matches that period's predicate, provided the batch's
`game_date` months all equal `m`. -/
theorem matches_toStored (y : Int) (m : Nat) (r : CsvRow)
    (h : r.gdMonth = m) : matchesPeriod y m (toStored y r) = true := by
  simp [matchesPeriod, toStored, h]

theorem upload_month_data_of_ne (store : Store) (df : DataFrame)
    (y : Int) (m : Nat) (hne : df.rows ≠ []) :
    upload_month_data store df y m =
      ⟨deleteMonth store y m ++ df.rows.map (toStored y),
       countMonth (deleteMonth store y m ++ df.rows.map (toStored y)) y m,
       { df with gameDateAsDatetime := true, yearCol := some y }⟩ := by
  rw [upload_month_data,
    if_neg (fun h => hne (List.length_eq_zero.mp h))]

theorem upload_month_data_2025_of_ne (store : Store) (df : DataFrame)
    (y : Int) (m : Nat) (now : Nat) (hne : df.rows ≠ []) :
    upload_month_data_2025 store df y m now =
      ⟨store ++ df.rows.map (toStored2025 y m),
       countYearMonthCol (store ++ df.rows.map (toStored2025 y m)) y m,
       { df with gameDateAsDatetime := true, yearCol := some y,
                 monthCol := some m, loadTimestamp := some now }⟩ := by
  rw [upload_month_data_2025,
    if_neg (fun h => hne (List.length_eq_zero.mp h))]

/-- After a non-empty in-month load, the period's row count in the
store is exactly the batch's row count, whatever was stored before. -/
theorem countMonth_after_upload (store : Store) (df : DataFrame)
    (y : Int) (m : Nat) (hne : df.rows ≠ [])
    (hm : ∀ r ∈ df.rows, r.gdMonth = m) :
    countMonth (upload_month_data store df y m).store y m
      = df.rows.length := by
  rw [upload_month_data_of_ne store df y m hne]
  unfold countMonth deleteMonth
  rw [List.filter_append, filter_of_filter_not]
  have hall : ∀ a ∈ df.rows.map (toStored y), matchesPeriod y m a = true := by
    intro a ha
    obtain ⟨r, hr, rfl⟩ := List.mem_map.mp ha
    exact matches_toStored y m r (hm r hr)
  rw [List.filter_eq_self.mpr hall]
  simp

theorem replicate_ne_nil {α : Type} (n : Nat) (hn : n ≠ 0) (a : α) :
    List.replicate n a ≠ [] := by
  intro h
  have hl := List.length_replicate n a
  rw [h] at hl
  simp at hl
  omega

/-- Deleting the period again after an in-month load removes exactly the
rows the load inserted, leaving what the first delete left. -/
theorem deleteMonth_after_upload (store : Store) (df : DataFrame)
    (y : Int) (m : Nat) (hm : ∀ r ∈ df.rows, r.gdMonth = m) :
    deleteMonth (deleteMonth store y m ++ df.rows.map (toStored y)) y m
      = deleteMonth store y m := by
  unfold deleteMonth
  rw [List.filter_append, filter_not_idem]
  have hnil : (df.rows.map (toStored y)).filter
      (fun a => !(matchesPeriod y m a)) = [] := by
    apply List.filter_eq_nil_iff.mpr
    intro a ha
    obtain ⟨r0, hr0, rfl⟩ := List.mem_map.mp ha
    simp [matches_toStored y m r0 (hm r0 hr0)]
  rw [hnil, List.append_nil]

theorem filter_replicate_of_pos {α : Type} (p : α → Bool) (n : Nat)
    (a : α) (h : p a = true) :
    (List.replicate n a).filter p = List.replicate n a := by
  rw [List.filter_replicate, if_pos h]

/-! ## Claim theorems -/

/-- C2, counterexample: with every period's stored count exactly 1000,
the count is at (hence at-or-above) the threshold 1000, yet the planner
still includes the period — `get_months_to_collect` skips only counts
STRICTLY above 1000 (`if count > 1000`), so the claim's `≥` is wrong at
the boundary. -/
theorem planner_exact_threshold_counterexample :
    1000 ≤ (fun (_ : Int) (_ : Nat) => 1000) (2015 : Int) 3
    ∧ ((2015 : Int), 3) ∈ get_months_to_collect (fun _ _ => 1000) := by
  exact ⟨le_refl 1000, by decide⟩

/-- C2 (amended): the planner's worklist is exactly the candidate
periods whose stored row count is at most 1000 — i.e. a period is
excluded iff its count is STRICTLY greater than 1000 (a period with
exactly 1000 rows is re-collected) — and the worklist is in period
order (years ascending, months ascending within a year). -/
theorem planner_skips_strictly_above_threshold (count : Int → Nat → Nat) :
    get_months_to_collect count
      = candidate_periods.filter (fun p => decide (count p.1 p.2 ≤ 1000))
    ∧ (get_months_to_collect count).Pairwise periodLt := by
  refine ⟨get_months_to_collect_eq count, ?_⟩
  rw [get_months_to_collect_eq count]
  exact List.Pairwise.sublist (List.filter_sublist _) candidate_periods_pairwise

theorem planner_skips_strictly_above_threshold_witness :
    get_months_to_collect (fun _ _ => 1500)
      = candidate_periods.filter
          (fun p => decide ((fun (_ : Int) (_ : Nat) => 1500) p.1 p.2 ≤ 1000))
    ∧ (get_months_to_collect (fun _ _ => 1500)).Pairwise periodLt :=
  planner_skips_strictly_above_threshold (fun _ _ => 1500)

set_option maxRecDepth 8192 in
/-- C1, counterexample: the Loader of `collect_statcast_2025.py` has no
delete step.  Loading a 1200-row April batch onto 500 existing rows of
the same period leaves 1700 rows for that period key, not 1200; and
running that loader twice in succession on the same input reports 2400
rows, not the 1200 a single run reports. -/
theorem load_2025_no_delete_counterexample :
    countMonth
      (upload_month_data_2025 (List.replicate 500 ⟨2024, none, 5, 10, 0⟩)
        ⟨List.replicate 1200 ⟨5, 10, 1⟩, false, none, none, none⟩
        2024 5 0).store 2024 5 = 1700
    ∧ (upload_month_data_2025
        (upload_month_data_2025 []
          ⟨List.replicate 1200 ⟨5, 10, 1⟩, false, none, none, none⟩
          2024 5 0).store
        ⟨List.replicate 1200 ⟨5, 10, 1⟩, false, none, none, none⟩
        2024 5 0).verified = 2400
    ∧ ¬((1700 : Nat) = 1200 ∨ (2400 : Nat) = 1200) := by
  refine ⟨?_, ?_, by decide⟩
  · rw [upload_month_data_2025_of_ne _ _ _ _ _
      (replicate_ne_nil 1200 (by decide) _)]
    simp only []
    rw [countMonth, List.map_replicate, List.filter_append,
      filter_replicate_of_pos (matchesPeriod 2024 5) 500
        ⟨2024, none, 5, 10, 0⟩ rfl,
      filter_replicate_of_pos (matchesPeriod 2024 5) 1200
        (toStored2025 2024 5 ⟨5, 10, 1⟩) rfl,
      List.length_append, List.length_replicate, List.length_replicate]
  · rw [upload_month_data_2025_of_ne _ _ _ _ _
      (replicate_ne_nil 1200 (by decide) _),
      upload_month_data_2025_of_ne _ _ _ _ _
      (replicate_ne_nil 1200 (by decide) _)]
    simp only []
    rw [countYearMonthCol, List.map_replicate, List.nil_append,
      List.filter_append,
      filter_replicate_of_pos
        (fun r : StoredRow => r.yearCol == (2024 : Int)
          && r.monthCol == some (5 : Nat)) 1200
        (toStored2025 2024 5 ⟨5, 10, 1⟩) rfl,
      List.length_append, List.length_replicate]

/-- C1 (amended): for the delete-then-insert loaders
(`collect_statcast_parallel.py` / `collect_statcast_direct.py` /
`collect_statcast_local.py`), and for a non-empty batch whose
`game_date` months all lie in the loaded month: the verified count the
loader returns and the stored count for the period key afterwards both
equal the batch's row count, independent of whatever generation was
stored before (500 pre-existing rows + a 1200-row batch yield 1200, not
1700); and running the loader twice in succession on the same input
leaves the store exactly as one run does. -/
theorem load_replace_exact_count_idempotent (store : Store)
    (df : DataFrame) (y : Int) (m : Nat) (hne : df.rows ≠ [])
    (hm : ∀ r ∈ df.rows, r.gdMonth = m) :
    (upload_month_data store df y m).verified = df.rows.length
    ∧ countMonth (upload_month_data store df y m).store y m
        = df.rows.length
    ∧ (upload_month_data (upload_month_data store df y m).store df y m).store
        = (upload_month_data store df y m).store := by
  refine ⟨?_, countMonth_after_upload store df y m hne hm, ?_⟩
  · rw [upload_month_data_of_ne store df y m hne]
    have := countMonth_after_upload store df y m hne hm
    rw [upload_month_data_of_ne store df y m hne] at this
    exact this
  · rw [upload_month_data_of_ne store df y m hne]
    rw [upload_month_data_of_ne _ df y m hne]
    simp only [UploadResult.mk.injEq]
    rw [deleteMonth_after_upload store df y m hm]

theorem load_replace_exact_count_idempotent_witness :
    (upload_month_data [⟨2024, none, 5, 9, 7⟩]
        ⟨[⟨5, 1, 0⟩, ⟨5, 2, 0⟩], false, none, none, none⟩ 2024 5).verified
      = ([⟨5, 1, 0⟩, ⟨5, 2, 0⟩] : List CsvRow).length
    ∧ countMonth
        (upload_month_data [⟨2024, none, 5, 9, 7⟩]
          ⟨[⟨5, 1, 0⟩, ⟨5, 2, 0⟩], false, none, none, none⟩ 2024 5).store
        2024 5 = ([⟨5, 1, 0⟩, ⟨5, 2, 0⟩] : List CsvRow).length
    ∧ (upload_month_data
        (upload_month_data [⟨2024, none, 5, 9, 7⟩]
          ⟨[⟨5, 1, 0⟩, ⟨5, 2, 0⟩], false, none, none, none⟩ 2024 5).store
        ⟨[⟨5, 1, 0⟩, ⟨5, 2, 0⟩], false, none, none, none⟩ 2024 5).store
      = (upload_month_data [⟨2024, none, 5, 9, 7⟩]
          ⟨[⟨5, 1, 0⟩, ⟨5, 2, 0⟩], false, none, none, none⟩ 2024 5).store :=
  load_replace_exact_count_idempotent [⟨2024, none, 5, 9, 7⟩]
    ⟨[⟨5, 1, 0⟩, ⟨5, 2, 0⟩], false, none, none, none⟩ 2024 5
    (by decide) (by decide)

set_option maxRecDepth 8192 in
/-- C3, counterexample: under the default retry policy of
`collect_statcast_parallel.py` (`max_retries=2`, i.e. only TWO
attempts), a day whose fetch raises on its first two attempts never
reaches a third attempt: day 3 ends as a terminal error and the
period's verified row count is 4 (days 1, 2, 4, 5), not 5. -/
theorem day3_third_attempt_parallel_counterexample :
    (collect_day (fun a => if a < 2 then FetchResult.exn "timeout"
        else FetchResult.ok (some [⟨4, 3, 3⟩])) "2024-04-03").1.error
      = some "timeout"
    ∧ (collect_month_parallel [] 2024 4
        [(collect_day (fun _ => FetchResult.ok (some [⟨4, 1, 1⟩])) "2024-04-01").1,
         (collect_day (fun _ => FetchResult.ok (some [⟨4, 2, 2⟩])) "2024-04-02").1,
         (collect_day (fun a => if a < 2 then FetchResult.exn "timeout"
            else FetchResult.ok (some [⟨4, 3, 3⟩])) "2024-04-03").1,
         (collect_day (fun _ => FetchResult.ok (some [⟨4, 4, 4⟩])) "2024-04-04").1,
         (collect_day (fun _ => FetchResult.ok (some [⟨4, 5, 5⟩])) "2024-04-05").1]).2
      = 4
    ∧ (4 : Nat) ≠ 5 := by
  refine ⟨by decide, by decide, by decide⟩

/-- C3 (amended): the scenario holds for `collect_statcast_2025.py`,
whose default policy (`max_retries=2`, i.e. up to THREE attempts) does
reach the third attempt: a day failing twice then succeeding
contributes the rows of its successful third attempt, and the period's
batch contains all five days' rows exactly once (store gains exactly
their concatenation).  Under `collect_statcast_parallel.py`'s default
two-attempt policy the same scenario instead loses day 3. -/
theorem day3_third_attempt_2025 (r1 r2 r3 r4 r5 : List CsvRow)
    (h1 : r1 ≠ []) (h2 : r2 ≠ []) (h3 : r3 ≠ []) (h4 : r4 ≠ [])
    (h5 : r5 ≠ []) (store : Store) (y : Int) (m now : Nat) :
    collect_day_2025 (fun a => if a < 2 then none else some r3)
      = (some r3, 3)
    ∧ (collect_month_parallel_2025 store y m now
        [(collect_day_2025 (fun _ => some r1)).1,
         (collect_day_2025 (fun _ => some r2)).1,
         (collect_day_2025 (fun a => if a < 2 then none else some r3)).1,
         (collect_day_2025 (fun _ => some r4)).1,
         (collect_day_2025 (fun _ => some r5)).1]).1
      = store ++ (r1 ++ (r2 ++ (r3 ++ (r4 ++ r5)))).map (toStored2025 y m) := by
  have hday : ∀ r : List CsvRow, r ≠ [] →
      collect_day_2025 (fun _ => some r) = (some r, 1) := by
    intro r hr
    exact collect_day_2025_loop_first_success (fun _ => some r) r 0 0 3
      (by omega) (fun i hi => absurd hi (by omega)) rfl
      (List.length_pos.mpr hr)
  have hday3 : collect_day_2025 (fun a => if a < 2 then none else some r3)
      = (some r3, 3) := by
    exact collect_day_2025_loop_first_success _ r3 2 0 3 (by omega)
      (fun i hi => by simp [success2025, hi])
      (by norm_num) (List.length_pos.mpr h3)
  refine ⟨hday3, ?_⟩
  rw [hday r1 h1, hday r2 h2, hday3, hday r4 h4, hday r5 h5]
  have hagg : aggregateResults2025 [some r1, some r2, some r3, some r4, some r5]
      = [r1, r2, r3, r4, r5] := by
    rw [aggregateResults2025_eq]
    simp [success2025, List.length_pos.mpr h1, List.length_pos.mpr h2,
      List.length_pos.mpr h3, List.length_pos.mpr h4, List.length_pos.mpr h5]
  rw [collect_month_parallel_2025]
  simp only [hagg, List.isEmpty_cons, Bool.false_eq_true, if_false]
  rw [upload_month_data_2025_of_ne _ _ _ _ _ (by simp [h1])]
  simp

theorem day3_third_attempt_2025_witness :
    collect_day_2025 (fun a => if a < 2 then none else some [⟨4, 3, 30⟩])
      = (some [⟨4, 3, 30⟩], 3)
    ∧ (collect_month_parallel_2025 [] 2025 4 0
        [(collect_day_2025 (fun _ => some [⟨4, 1, 10⟩])).1,
         (collect_day_2025 (fun _ => some [⟨4, 2, 20⟩])).1,
         (collect_day_2025 (fun a => if a < 2 then none else some [⟨4, 3, 30⟩])).1,
         (collect_day_2025 (fun _ => some [⟨4, 4, 40⟩])).1,
         (collect_day_2025 (fun _ => some [⟨4, 5, 50⟩])).1]).1
      = [] ++ (([⟨4, 1, 10⟩] ++ ([⟨4, 2, 20⟩] ++ ([⟨4, 3, 30⟩] ++
          ([⟨4, 4, 40⟩] ++ [⟨4, 5, 50⟩])))) : List CsvRow).map
          (toStored2025 2025 4) :=
  day3_third_attempt_2025 ([⟨4, 1, 10⟩] : List CsvRow)
    ([⟨4, 2, 20⟩] : List CsvRow) ([⟨4, 3, 30⟩] : List CsvRow)
    ([⟨4, 4, 40⟩] : List CsvRow) ([⟨4, 5, 50⟩] : List CsvRow)
    (by decide) (by decide) (by decide) (by decide) (by decide) [] 2025 4 0

/-- C4, counterexample: in `collect_statcast_2025.py` an Empty outcome
is NOT terminal.  With every attempt returning an empty dataframe the
wrapper makes all 3 attempts instead of returning after the first; and
after an Empty first attempt it retries and returns the SECOND
attempt's rows — so an Empty attempt triggered a further attempt,
contradicting the claim for this cited `collect_day`. -/
theorem empty_retried_2025_counterexample :
    (collect_day_2025 (fun _ => some [])).2 = 3
    ∧ (3 : Nat) ≠ 1
    ∧ (collect_day_2025
        (fun a => if a = 0 then some [] else some [⟨4, 2, 9⟩])).1
      = some [⟨4, 2, 9⟩] := by
  refine ⟨by decide, by decide, by decide⟩

/-- C4 (amended): the claim holds for `collect_day` of
`collect_statcast_parallel.py`: if the first `k` attempts raise and
attempt `k` yields Success or Empty, the wrapper returns that attempt's
result immediately after exactly `k + 1` fetches (Empty is terminal and
never retried); if every attempt raises, it stops after `max_retries`
attempts and returns the last error.  In `collect_statcast_2025.py`'s
`collect_day`, by contrast, Empty is indistinguishable from Failure and
is retried. -/
theorem retry_terminal_on_first_non_failure (trace : Nat → FetchResult)
    (date : String) (maxRetries : Nat) :
    (∀ k, k < maxRetries →
      (∀ i, i < k → ∃ e, trace i = FetchResult.exn e) →
      (∀ e, trace k ≠ FetchResult.exn e) →
      collect_day trace date maxRetries = (okResult date (trace k), k + 1))
    ∧ (0 < maxRetries →
      (∀ i, i < maxRetries → ∃ e, trace i = FetchResult.exn e) →
      ∃ e, trace (maxRetries - 1) = FetchResult.exn e ∧
        collect_day trace date maxRetries
          = (⟨date, none, some (e.take 100)⟩, maxRetries)) := by
  constructor
  · intro k hk hfail hterm
    rw [collect_day, List.range_eq_range']
    have := collect_day_loop_first_ok trace date maxRetries k 0 maxRetries
      (Nat.zero_add _) hk (fun i hi => by simpa using hfail i hi)
      (fun e => by simpa using hterm e)
    simpa using this
  · intro hpos hfail
    rw [collect_day, List.range_eq_range']
    exact collect_day_loop_all_fail trace date maxRetries maxRetries 0
      (Nat.zero_add _) hpos (fun i hi => by simpa using hfail i hi)

theorem retry_terminal_on_first_non_failure_witness :
    collect_day (fun a => if a = 0 then FetchResult.exn "boom"
        else FetchResult.ok none) "2024-04-01" 2
      = (okResult "2024-04-01"
          ((fun a => if a = 0 then FetchResult.exn "boom"
            else FetchResult.ok none) 1), 1 + 1) :=
  (retry_terminal_on_first_non_failure
      (fun a => if a = 0 then FetchResult.exn "boom" else FetchResult.ok none)
      "2024-04-01" 2).1 1 (by omega)
    (fun i hi => ⟨"boom", by
      have hz : i = 0 := by omega
      subst hz
      rfl⟩)
    (fun e h => by simp at h)

/-- C5 (confirmed): whatever completion order the scheduler delivers
(`arrival` is any permutation of the day results), the assembled
period batch's row count is the sum of the successful units' row
counts — each successful unit's rows are counted exactly once. -/
theorem assembler_rowcount_sum_order_invariant
    (results arrival : List DayResult) (hperm : arrival.Perm results) :
    ((aggregateResults arrival).2.flatten).length
      = ((results.filterMap successRows).map List.length).sum := by
  rw [aggregateResults_eq]
  simp only [List.length_flatten]
  exact ((hperm.filterMap successRows).map List.length).sum_eq

theorem assembler_rowcount_sum_order_invariant_witness :
    ((aggregateResults
        [⟨"2024-04-02", some [⟨4, 2, 5⟩, ⟨4, 2, 6⟩], none⟩,
         ⟨"2024-04-03", none, some "timeout"⟩,
         ⟨"2024-04-01", some [⟨4, 1, 7⟩], none⟩]).2.flatten).length
      = ((([⟨"2024-04-01", some [⟨4, 1, 7⟩], none⟩,
           ⟨"2024-04-02", some [⟨4, 2, 5⟩, ⟨4, 2, 6⟩], none⟩,
           ⟨"2024-04-03", none, some "timeout"⟩] :
            List DayResult).filterMap successRows).map List.length).sum :=
  assembler_rowcount_sum_order_invariant
    [⟨"2024-04-01", some [⟨4, 1, 7⟩], none⟩,
     ⟨"2024-04-02", some [⟨4, 2, 5⟩, ⟨4, 2, 6⟩], none⟩,
     ⟨"2024-04-03", none, some "timeout"⟩]
    [⟨"2024-04-02", some [⟨4, 2, 5⟩, ⟨4, 2, 6⟩], none⟩,
     ⟨"2024-04-03", none, some "timeout"⟩,
     ⟨"2024-04-01", some [⟨4, 1, 7⟩], none⟩]
    (by decide)

/-- C6 (confirmed): a unit whose retries are exhausted arrives as a
`DayResult` carrying an error (the wrapper returns it, never raises,
by construction of `collect_day`).  Wherever that result sits in the
arrival order, the assembled data is exactly what the remaining
results produce — no sibling's rows are lost — and the failure is
recorded in the period's error list. -/
theorem unit_failure_isolated (pre post : List DayResult)
    (r : DayResult) (e : String) (he : r.error = some e) :
    (aggregateResults (pre ++ r :: post)).2
        = (aggregateResults (pre ++ post)).2
    ∧ (r.date ++ ": " ++ e) ∈ (aggregateResults (pre ++ r :: post)).1 := by
  constructor
  · rw [aggregateResults_eq, aggregateResults_eq]
    simp [List.filterMap_append, List.filterMap_cons, successRows, he]
  · rw [aggregateResults_eq]
    simp only [List.filterMap_append, List.filterMap_cons, errEntry, he,
      Option.map_some]
    exact List.mem_append_right _ (List.mem_cons_self _ _)

theorem unit_failure_isolated_witness :
    (aggregateResults
        ([⟨"2024-04-01", some [⟨4, 1, 7⟩], none⟩] ++
          ⟨"2024-04-03", none, some "HTTP 502"⟩ ::
          [⟨"2024-04-04", some [⟨4, 4, 8⟩], none⟩])).2
      = (aggregateResults
          ([⟨"2024-04-01", some [⟨4, 1, 7⟩], none⟩] ++
            [⟨"2024-04-04", some [⟨4, 4, 8⟩], none⟩])).2
    ∧ ((⟨"2024-04-03", none, some "HTTP 502"⟩ : DayResult).date
        ++ ": " ++ "HTTP 502")
      ∈ (aggregateResults
          ([⟨"2024-04-01", some [⟨4, 1, 7⟩], none⟩] ++
            ⟨"2024-04-03", none, some "HTTP 502"⟩ ::
            [⟨"2024-04-04", some [⟨4, 4, 8⟩], none⟩])).1 :=
  unit_failure_isolated [⟨"2024-04-01", some [⟨4, 1, 7⟩], none⟩]
    [⟨"2024-04-04", some [⟨4, 4, 8⟩], none⟩]
    ⟨"2024-04-03", none, some "HTTP 502"⟩ "HTTP 502" rfl

/-- C7 (confirmed): the delete query removes exactly the stored rows
whose period key (year column, month of `game_date`) equals the
batch's key and nothing else; and for a batch whose `game_date` months
lie in the loaded month, the whole load (delete + insert) leaves the
stored rows of every other period key unchanged — in particular a
load (or failed re-load) of one period never touches an
already-loaded different period. -/
theorem delete_scoped_frame (store : Store) (df : DataFrame)
    (y : Int) (m : Nat) (hm : ∀ r ∈ df.rows, r.gdMonth = m) :
    (∀ r : StoredRow, r ∈ deleteMonth store y m ↔
      r ∈ store ∧ ¬(r.yearCol = y ∧ r.gdMonth = m))
    ∧ (∀ (y2 : Int) (m2 : Nat), ¬(y2 = y ∧ m2 = m) →
        periodRows (upload_month_data store df y m).store y2 m2
          = periodRows store y2 m2) := by
  constructor
  · intro r
    unfold deleteMonth
    rw [List.mem_filter]
    constructor
    · rintro ⟨hr, hmf⟩
      refine ⟨hr, ?_⟩
      rintro ⟨hy, hmm⟩
      simp [matchesPeriod, hy, hmm] at hmf
    · rintro ⟨hr, hnot⟩
      refine ⟨hr, ?_⟩
      cases hmf : matchesPeriod y m r with
      | false => simp [hmf]
      | true =>
        have hyy : r.yearCol = y ∧ r.gdMonth = m := by
          simpa [matchesPeriod] using hmf
        exact absurd hyy hnot
  · intro y2 m2 hne2
    by_cases hrows : df.rows = []
    · rw [upload_month_data, if_pos (by simp [hrows])]
    · rw [upload_month_data_of_ne store df y m hrows]
      unfold periodRows deleteMonth
      rw [List.filter_append, List.filter_filter]
      have hc : ∀ a ∈ store,
          (matchesPeriod y2 m2 a && !(matchesPeriod y m a))
            = matchesPeriod y2 m2 a := by
        intro a _
        cases h3 : matchesPeriod y m a with
        | false => simp
        | true =>
          cases h2 : matchesPeriod y2 m2 a with
          | false => simp
          | true =>
            have ha : a.yearCol = y ∧ a.gdMonth = m := by
              simpa [matchesPeriod] using h3
            have hb : a.yearCol = y2 ∧ a.gdMonth = m2 := by
              simpa [matchesPeriod] using h2
            exact absurd ⟨hb.1.symm.trans ha.1, hb.2.symm.trans ha.2⟩ hne2
      rw [List.filter_congr hc]
      have hins : (df.rows.map (toStored y)).filter (matchesPeriod y2 m2)
          = [] := by
        apply List.filter_eq_nil_iff.mpr
        intro a ha
        obtain ⟨r0, hr0, rfl⟩ := List.mem_map.mp ha
        simp only [matchesPeriod, toStored, Bool.and_eq_true, beq_iff_eq]
        rintro ⟨hy2, hm2⟩
        exact hne2 ⟨hy2.symm, (hm2.symm.trans (hm r0 hr0))⟩
      rw [hins, List.append_nil]

/-- C8 (confirmed): a period in which no unit succeeds assembles an
empty batch and performs no store mutation: `collect_month_parallel`
returns the store untouched with count 0, and the loader's guard means
it would not mutate the store on an empty batch either. -/
theorem empty_period_no_mutation (store : Store) (y : Int) (m : Nat)
    (arrival : List DayResult)
    (hzero : ∀ r ∈ arrival, successRows r = none) :
    collect_month_parallel store y m arrival = (store, 0)
    ∧ (∀ (store2 : Store) (df : DataFrame) (y2 : Int) (m2 : Nat),
        df.rows = [] → upload_month_data store2 df y2 m2 = ⟨store2, 0, df⟩) := by
  constructor
  · have hnil : (aggregateResults arrival).2 = [] := by
      rw [aggregateResults_eq]
      exact List.filterMap_eq_nil_iff.mpr hzero
    rw [collect_month_parallel]
    simp [hnil]
  · intro store2 df y2 m2 hdf
    rw [upload_month_data, if_pos (by simp [hdf])]

theorem empty_period_no_mutation_witness :
    collect_month_parallel [⟨2024, none, 4, 1, 0⟩] 2024 4
        [⟨"2024-04-01", none, none⟩, ⟨"2024-04-02", none, some "timeout"⟩]
      = ([⟨2024, none, 4, 1, 0⟩], 0) :=
  (empty_period_no_mutation [⟨2024, none, 4, 1, 0⟩] 2024 4
    [⟨"2024-04-01", none, none⟩, ⟨"2024-04-02", none, some "timeout"⟩]
    (by decide)).1

theorem delete_scoped_frame_witness :
    periodRows (upload_month_data [⟨2023, none, 5, 2, 1⟩]
        ⟨[⟨5, 3, 9⟩], false, none, none, none⟩ 2024 5).store 2023 5
      = periodRows [⟨2023, none, 5, 2, 1⟩] 2023 5 :=
  (delete_scoped_frame [⟨2023, none, 5, 2, 1⟩]
      ⟨[⟨5, 3, 9⟩], false, none, none, none⟩ 2024 5 (by decide)).2 2023 5
    (by decide)

/-- C9 (confirmed): for a planned month other than March, the
parallel collectors expand the range into one fetch unit per calendar
day, days 1 through the month's last day, each exactly once (and the
2025 variant's hard-coded table agrees on the planned months); for
March the units start at the 20th — March 1-19 are never fetched —
while the delete query for March matches any March row of that year,
whatever its day, so a March reload removes stored rows dated March
1-19 without refetching them. -/
theorem march_window_gap (y : Int) (m d : Nat) (store : Store)
    (r : StoredRow) :
    (m ∈ months_to_collect → m ≠ 3 →
      ((d ∈ month_dates y m ↔ 1 ≤ d ∧ d ≤ daysInMonth y m)
        ∧ (month_dates y m).Nodup
        ∧ month_dates_2025 y m = month_dates y m))
    ∧ (d ∈ month_dates y 3 ↔ 20 ≤ d ∧ d ≤ 31)
    ∧ (d < 20 → d ∉ month_dates y 3)
    ∧ (month_dates y 3).Nodup
    ∧ month_dates_2025 y 3 = month_dates y 3
    ∧ (r ∈ store → r.yearCol = y → r.gdMonth = 3 →
        matchesPeriod y 3 r = true ∧ r ∉ deleteMonth store y 3) := by
  refine ⟨?_, ?_, ?_, ?_, ?_, ?_⟩
  · intro hmem hne3
    have hm : m = 3 ∨ m = 4 ∨ m = 5 ∨ m = 6 ∨ m = 7 ∨ m = 8 ∨ m = 9
        ∨ m = 10 := by simpa [months_to_collect] using hmem
    rcases hm with rfl | rfl | rfl | rfl | rfl | rfl | rfl | rfl
    · exact absurd rfl hne3
    · refine ⟨?_, nodup_range_map_add 30 1, rfl⟩
      show d ∈ (List.range 30).map (· + 1) ↔ 1 ≤ d ∧ d ≤ 30
      rw [mem_range_map_add]
      omega
    · refine ⟨?_, nodup_range_map_add 31 1, rfl⟩
      show d ∈ (List.range 31).map (· + 1) ↔ 1 ≤ d ∧ d ≤ 31
      rw [mem_range_map_add]
      omega
    · refine ⟨?_, nodup_range_map_add 30 1, rfl⟩
      show d ∈ (List.range 30).map (· + 1) ↔ 1 ≤ d ∧ d ≤ 30
      rw [mem_range_map_add]
      omega
    · refine ⟨?_, nodup_range_map_add 31 1, rfl⟩
      show d ∈ (List.range 31).map (· + 1) ↔ 1 ≤ d ∧ d ≤ 31
      rw [mem_range_map_add]
      omega
    · refine ⟨?_, nodup_range_map_add 31 1, rfl⟩
      show d ∈ (List.range 31).map (· + 1) ↔ 1 ≤ d ∧ d ≤ 31
      rw [mem_range_map_add]
      omega
    · refine ⟨?_, nodup_range_map_add 30 1, rfl⟩
      show d ∈ (List.range 30).map (· + 1) ↔ 1 ≤ d ∧ d ≤ 30
      rw [mem_range_map_add]
      omega
    · refine ⟨?_, nodup_range_map_add 31 1, rfl⟩
      show d ∈ (List.range 31).map (· + 1) ↔ 1 ≤ d ∧ d ≤ 31
      rw [mem_range_map_add]
      omega
  · show d ∈ (List.range 12).map (· + 20) ↔ 20 ≤ d ∧ d ≤ 31
    rw [mem_range_map_add]
    omega
  · intro hlt hmem
    have hmem2 : d ∈ (List.range 12).map (· + 20) := hmem
    rw [mem_range_map_add] at hmem2
    omega
  · exact nodup_range_map_add 12 20
  · rfl
  · intro hr hy h3
    refine ⟨by simp [matchesPeriod, hy, h3], ?_⟩
    intro hmem
    rw [deleteMonth, List.mem_filter] at hmem
    simp [matchesPeriod, hy, h3] at hmem

theorem march_window_gap_witness :
    ((15 : Nat) ∈ month_dates 2024 4 ↔ 1 ≤ 15 ∧ 15 ≤ daysInMonth 2024 4)
    ∧ (month_dates 2024 4).Nodup
    ∧ month_dates_2025 2024 4 = month_dates 2024 4 :=
  (march_window_gap 2024 4 15 [] ⟨2024, none, 3, 5, 0⟩).1
    (by decide) (by decide)

/-- C10 (confirmed): the loaders mutate the caller's dataframe rather
than treating the batch as immutable: after a non-empty load the
caller's table has gained a `year` column (and, in the 2025 variant,
`month` and `data_load_timestamp` columns) and its `game_date` column
has been coerced to datetime, so it is no longer the table the
assembler produced. -/
theorem loader_mutates_caller_dataframe (store : Store) (df : DataFrame)
    (y : Int) (m now : Nat) (hne : df.rows ≠ []) (hy : df.yearCol = none) :
    ((upload_month_data store df y m).df ≠ df
      ∧ (upload_month_data store df y m).df.yearCol = some y
      ∧ (upload_month_data store df y m).df.gameDateAsDatetime = true
      ∧ (upload_month_data store df y m).df.rows = df.rows)
    ∧ ((upload_month_data_2025 store df y m now).df ≠ df
      ∧ (upload_month_data_2025 store df y m now).df.yearCol = some y
      ∧ (upload_month_data_2025 store df y m now).df.monthCol = some m
      ∧ (upload_month_data_2025 store df y m now).df.loadTimestamp = some now
      ∧ (upload_month_data_2025 store df y m now).df.gameDateAsDatetime
          = true) := by
  rw [upload_month_data_of_ne store df y m hne,
    upload_month_data_2025_of_ne store df y m now hne]
  refine ⟨⟨?_, rfl, rfl, rfl⟩, ?_, rfl, rfl, rfl, rfl⟩
  · intro h
    have hcol := congrArg DataFrame.yearCol h
    rw [hy] at hcol
    simp at hcol
  · intro h
    have hcol := congrArg DataFrame.yearCol h
    rw [hy] at hcol
    simp at hcol

theorem loader_mutates_caller_dataframe_witness :
    ((upload_month_data [] ⟨[⟨5, 1, 0⟩], false, none, none, none⟩ 2024 5).df
        ≠ ⟨[⟨5, 1, 0⟩], false, none, none, none⟩
      ∧ (upload_month_data []
          ⟨[⟨5, 1, 0⟩], false, none, none, none⟩ 2024 5).df.yearCol
        = some 2024
      ∧ (upload_month_data []
          ⟨[⟨5, 1, 0⟩], false, none, none, none⟩ 2024 5).df.gameDateAsDatetime
        = true
      ∧ (upload_month_data []
          ⟨[⟨5, 1, 0⟩], false, none, none, none⟩ 2024 5).df.rows
        = DataFrame.rows ⟨[⟨5, 1, 0⟩], false, none, none, none⟩)
    ∧ ((upload_month_data_2025 []
          ⟨[⟨5, 1, 0⟩], false, none, none, none⟩ 2024 5 77).df
        ≠ ⟨[⟨5, 1, 0⟩], false, none, none, none⟩
      ∧ (upload_month_data_2025 []
          ⟨[⟨5, 1, 0⟩], false, none, none, none⟩ 2024 5 77).df.yearCol
        = some 2024
      ∧ (upload_month_data_2025 []
          ⟨[⟨5, 1, 0⟩], false, none, none, none⟩ 2024 5 77).df.monthCol
        = some 5
      ∧ (upload_month_data_2025 []
          ⟨[⟨5, 1, 0⟩], false, none, none, none⟩ 2024 5 77).df.loadTimestamp
        = some 77
      ∧ (upload_month_data_2025 []
          ⟨[⟨5, 1, 0⟩], false, none, none, none⟩ 2024 5 77).df.gameDateAsDatetime
        = true) :=
  loader_mutates_caller_dataframe [] ⟨[⟨5, 1, 0⟩], false, none, none, none⟩
    2024 5 77 (by decide) rfl

end HanksTank
